import Mathlib

/- Verification development for the E2B R3 XML triage application (src/app.py).

   The Python source is shallowly embedded: each helper function of the
   source is translated to a computable Lean definition over `String`,
   `List Char`, `Nat` and `Option`.  Case processing (the long per-file
   loop of the source) is modelled as pure functions over a `CaseInput`
   record holding the values the XML field-extraction layer produces.
   Python's `datetime.date` is modelled by `DateD` (year/month/day with
   chronological order), Python exceptions by `Option`/the empty string,
   and Python string truthiness by emptiness tests.  -/

/- ===== Character and string helpers (ASCII fragment of Python str) ===== -/

/-- Whitespace characters of Python's `\s` / `str.strip()` (ASCII part). -/
def isWsC (c : Char) : Bool :=
  c = ' ' || c = '\t' || c = '\n' || c = '\r' || c = '\x0b' || c = '\x0c'

def isDigitC (c : Char) : Bool := '0' ≤ c && c ≤ '9'

def isLowerAl (c : Char) : Bool := 'a' ≤ c && c ≤ 'z'

def isUpperAl (c : Char) : Bool := 'A' ≤ c && c ≤ 'Z'

def isAl (c : Char) : Bool := isLowerAl c || isUpperAl c

def isAlnumC (c : Char) : Bool := isAl c || isDigitC c

/-- Word character of the regex `\w` / `\b` (ASCII part). -/
def isWordChar (c : Char) : Bool := isAlnumC c || c = '_'

/-- Python `str.lower()` on ASCII text. -/
def lowerStr (s : String) : String := String.mk (s.data.map Char.toLower)

def stripWsL (cs : List Char) : List Char :=
  ((cs.dropWhile isWsC).reverse.dropWhile isWsC).reverse

/-- Python `str.strip()`. -/
def stripStr (s : String) : String := String.mk (stripWsL s.data)

/-- Emptiness of a string, i.e. Python string falsiness. -/
def strEmptyB (s : String) : Bool :=
  match s.data with
  | [] => true
  | _ :: _ => false

/-- List prefix test used for `str.startswith` and substring scans. -/
def isPreL : List Char → List Char → Bool
  | [], _ => true
  | _ :: _, [] => false
  | a :: as, b :: bs => a = b && isPreL as bs

/-- Python `s.startswith(p)`, as `strStarts p s`. -/
def strStarts (p s : String) : Bool := isPreL p.data s.data

def subSearch (pat : List Char) : List Char → Bool
  | [] => isPreL pat []
  | c :: rest => isPreL pat (c :: rest) || subSearch pat rest

/-- Python `pat in s` (substring containment). -/
def strContainsSub (pat s : String) : Bool := subSearch pat.data s.data

/-- Python `sep.join(l)`. -/
def joinSep (sep : String) : List String → String
  | [] => ""
  | [x] => x
  | x :: y :: rest => x ++ sep ++ joinSep sep (y :: rest)

/-- Lexicographic code-point comparison, Python `a <= b` on strings. -/
def leL : List Char → List Char → Bool
  | [], _ => true
  | _ :: _, [] => false
  | a :: as, b :: bs => if a = b then leL as bs else decide (a.toNat < b.toNat)

def strLe (a b : String) : Bool := leL a.data b.data

def insertSorted (key : String → String) (x : String) : List String → List String
  | [] => [x]
  | y :: ys => if strLe (key x) (key y) then x :: y :: ys else y :: insertSorted key x ys

/-- Stable ascending sort by a key, Python `sorted(l, key=key)`. -/
def sortByKey (key : String → String) : List String → List String
  | [] => []
  | x :: xs => insertSorted key x (sortByKey key xs)

def hasAlnum (s : String) : Bool := s.data.any isAlnumC

/- ===== Date Normalizer (src/app.py lines 38-79) ===== -/

/-- Python `_digits_only`: keep only the decimal digits of a string. -/
def digitsOnly (s : String) : List Char := s.data.filter isDigitC

def natOfDigits (cs : List Char) : Nat := cs.foldl (fun a c => a * 10 + (c.toNat - 48)) 0

/-- Model of Python `datetime.date`: a calendar date ordered chronologically. -/
structure DateD where
  y : Nat
  m : Nat
  d : Nat
deriving DecidableEq, Repr

def DateD.key (t : DateD) : Nat := t.y * 10000 + t.m * 100 + t.d

/-- Chronological strict order on dates (valid dates have m ≤ 12, d ≤ 31,
    so comparing keys is the calendar order). -/
def dlt (a b : DateD) : Bool := Nat.blt a.key b.key

def isLeap (y : Nat) : Bool := y % 4 == 0 && (y % 100 != 0 || y % 400 == 0)

/-- Last day of a month, Python `calendar.monthrange(y, m)[1]`. -/
def monthLastDay (y m : Nat) : Nat :=
  if m = 2 then (if isLeap y then 29 else 28)
  else if m = 4 ∨ m = 6 ∨ m = 9 ∨ m = 11 then 30
  else 31

def monthAbbrev : Nat → String
  | 1 => "Jan"
  | 2 => "Feb"
  | 3 => "Mar"
  | 4 => "Apr"
  | 5 => "May"
  | 6 => "Jun"
  | 7 => "Jul"
  | 8 => "Aug"
  | 9 => "Sep"
  | 10 => "Oct"
  | 11 => "Nov"
  | 12 => "Dec"
  | _ => ""

/-- Two-digit zero-padded day, as strftime's `%d`. -/
def pad2 (n : Nat) : String := if n < 10 then "0" ++ toString n else toString n

/-- Python `format_date` (src/app.py lines 41-59): display form of a raw
    timestamp string.  `datetime.strptime`/`datetime(...)` raising on an
    invalid year/month/day is modelled by the validity conditions guarding
    each branch (Python years run 1..9999; four digits already bound the
    year above by 9999). -/
def format_date (s : String) : String :=
  if s = "" then ""
  else
    let ds := digitsOnly s
    if 8 ≤ ds.length then
      let y := natOfDigits (ds.take 4)
      let m := natOfDigits ((ds.drop 4).take 2)
      let d := natOfDigits ((ds.drop 6).take 2)
      if 1 ≤ y ∧ 1 ≤ m ∧ m ≤ 12 ∧ 1 ≤ d ∧ d ≤ monthLastDay y m then
        pad2 d ++ "-" ++ monthAbbrev m ++ "-" ++ toString y
      else ""
    else if 6 ≤ ds.length then
      let y := natOfDigits (ds.take 4)
      let m := natOfDigits ((ds.drop 4).take 2)
      if 1 ≤ y ∧ 1 ≤ m ∧ m ≤ 12 then monthAbbrev m ++ "-" ++ toString y else ""
    else if 4 ≤ ds.length then
      toString (natOfDigits (ds.take 4))
    else ""

/-- Python `parse_date_obj` (src/app.py lines 61-79): comparable date of a
    raw timestamp string; partial dates round up (month to its last day,
    year to Dec 31). -/
def parse_date_obj (s : String) : Option DateD :=
  if s = "" then none
  else
    let ds := digitsOnly s
    if 8 ≤ ds.length then
      let y := natOfDigits (ds.take 4)
      let m := natOfDigits ((ds.drop 4).take 2)
      let d := natOfDigits ((ds.drop 6).take 2)
      if 1 ≤ y ∧ 1 ≤ m ∧ m ≤ 12 ∧ 1 ≤ d ∧ d ≤ monthLastDay y m then some ⟨y, m, d⟩
      else none
    else if 6 ≤ ds.length then
      let y := natOfDigits (ds.take 4)
      let m := natOfDigits ((ds.drop 4).take 2)
      if 1 ≤ y ∧ 1 ≤ m ∧ m ≤ 12 then some ⟨y, m, monthLastDay y m⟩ else none
    else if 4 ≤ ds.length then
      let y := natOfDigits (ds.take 4)
      if 1 ≤ y then some ⟨y, 12, 31⟩ else none
    else none

/- ===== Text normalization and the unknown-token filter (lines 111-128) ===== -/

def UNKNOWN_TOKENS : List String := ["unk", "asku", "unknown"]

/-- Python `is_unknown` (lines 113-119); a `None` value is modelled as `""`. -/
def is_unknown (v : String) : Bool :=
  let t := stripStr v
  strEmptyB t || UNKNOWN_TOKENS.contains (lowerStr t)

/-- Python `clean_value` (lines 121-122). -/
def clean_value (v : String) : String := if is_unknown v then "" else v

def keepNormC (c : Char) : Bool :=
  isLowerAl c || isDigitC c || isWsC c || c = '+' || c = '-'

/-- Collapse every whitespace run to a single blank, regex `\s+` to a space. -/
def collapseWsAux : Bool → List Char → List Char
  | _, [] => []
  | prevWs, c :: rest =>
    if isWsC c then
      (if prevWs then collapseWsAux true rest else ' ' :: collapseWsAux true rest)
    else c :: collapseWsAux false rest

/-- Python `normalize_text` (lines 124-128): lowercase, replace every char
    outside lowercase letters / digits / whitespace / `+` / `-` by a blank,
    collapse whitespace runs, strip. -/
def normalize_text (s : String) : String :=
  String.mk (stripWsL (collapseWsAux false
    (s.data.map (fun c0 => let c := c0.toLower; if keepNormC c then c else ' '))))

/- ===== Product vocabulary and whole-word matching (lines 178-191, 491-500) ===== -/

def company_products : List String :=
  ["abiraterone", "apixaban", "apremilast", "bexarotene", "clobazam", "clonazepam",
   "cyanocobalamin", "dabigatran", "dapagliflozin", "dimethyl fumarate", "famotidine",
   "fesoterodine", "icatibant", "itraconazole", "linagliptin", "linagliptin + metformin",
   "nintedanib", "pirfenidone", "raltegravir", "ranolazine", "rivaroxaban", "saxagliptin",
   "sitagliptin", "tamsulosin + solifenacin", "tapentadol", "ticagrelor", "tamsulosin",
   "solifenacin", "cyclogest", "progesterone", "luteum", "amelgen"]

def category2_products : List String :=
  ["clobazam", "clonazepam", "cyanocobalamin", "famotidine", "itraconazole",
   "tamsulosin", "solifenacin", "tapentadol", "cyclogest", "progesterone",
   "luteum", "amelgen"]

def boundaryOk : Option Char → Bool
  | none => true
  | some c => !isWordChar c

def afterOk : List Char → Bool
  | [] => true
  | c :: _ => !isWordChar c

/-- Literal prefix match returning the rest of the input on success. -/
def matchHere : List Char → List Char → Option (List Char)
  | [], rest => some rest
  | _ :: _, [] => none
  | a :: as, b :: bs => if a = b then matchHere as bs else none

/-- Search for `pat` bounded by word boundaries, the regex
    `\b<escaped pat>\b` of `contains_company_product` (every vocabulary
    entry starts and ends with an alphanumeric character, for which `\b`
    means exactly these neighbour tests).  `prev` is the character left of
    the current position, `none` at the start of the text. -/
def wbSearch (pat : List Char) : Option Char → List Char → Bool
  | prev, [] =>
    boundaryOk prev &&
      (match matchHere pat [] with
       | some rest => afterOk rest
       | none => false)
  | prev, c :: rest =>
    (boundaryOk prev &&
      (match matchHere pat (c :: rest) with
       | some r => afterOk r
       | none => false))
    || wbSearch pat (some c) rest

/-- Python `contains_company_product` (lines 491-500): first vocabulary
    entry whose normalized form occurs whole-word in the normalized text,
    `""` when none does. -/
def contains_company_product (text : String) : String :=
  match company_products.find? (fun prod =>
      let pnorm := normalize_text prod
      !(strEmptyB pnorm) && wbSearch pnorm.data none (normalize_text text).data) with
  | some p => p
  | none => ""

/- ===== Launch registry (lines 193-257) ===== -/

/-- Payload of a `LAUNCH_INFO` entry: Python `None`, a single date, or a
    strength-to-date dict. -/
inductive LPayload where
  | noneP : LPayload
  | dateP : DateD → LPayload
  | dictP : List (ℚ × DateD) → LPayload
deriving DecidableEq

def lookupStr {α : Type} (l : List (String × α)) (k : String) : Option α :=
  (l.find? (fun kv => kv.1 == k)).map (fun kv => kv.2)

def lookupQ (l : List (ℚ × DateD)) (k : ℚ) : Option DateD :=
  (l.find? (fun kv => decide (kv.1 = k))).map (fun kv => kv.2)

/-- The `LAUNCH_INFO` table (lines 196-234); the `parse_dd_mmm_yy` literals
    of the source are written as explicit dates ("08-Sep-22" is 2022-09-08,
    two-digit years 22-25 all fall in 2000-2068). -/
def LAUNCH_INFO : List (String × String × LPayload) :=
  [("abiraterone", ("launched", LPayload.dateP ⟨2022, 9, 8⟩)),
   ("apixaban", ("launched", LPayload.dateP ⟨2025, 2, 26⟩)),
   ("apremilast", ("yet", LPayload.noneP)),
   ("bexarotene", ("launched", LPayload.dateP ⟨2023, 1, 19⟩)),
   ("clobazam", ("launched", LPayload.dateP ⟨2024, 9, 26⟩)),
   ("clonazepam", ("launched", LPayload.dateP ⟨2025, 1, 20⟩)),
   ("cyanocobalamin", ("awaited", LPayload.noneP)),
   ("dabigatran", ("yet", LPayload.noneP)),
   ("dapagliflozin", ("launched_by_strength",
      LPayload.dictP [((10 : ℚ), ⟨2025, 8, 26⟩), ((5 : ℚ), ⟨2025, 9, 10⟩)])),
   ("dimethyl fumarate", ("launched", LPayload.dateP ⟨2024, 2, 5⟩)),
   ("famotidine", ("launched", LPayload.dateP ⟨2025, 2, 21⟩)),
   ("fesoterodine", ("yet", LPayload.noneP)),
   ("icatibant", ("launched", LPayload.dateP ⟨2022, 7, 28⟩)),
   ("itraconazole", ("awaited", LPayload.noneP)),
   ("linagliptin", ("yet", LPayload.noneP)),
   ("linagliptin + metformin", ("awaited", LPayload.noneP)),
   ("nintedanib", ("awaited", LPayload.noneP)),
   ("pirfenidone", ("launched", LPayload.dateP ⟨2022, 6, 29⟩)),
   ("raltegravir", ("awaited", LPayload.noneP)),
   ("ranolazine", ("launched", LPayload.dateP ⟨2023, 7, 20⟩)),
   ("rivaroxaban", ("launched_by_strength",
      LPayload.dictP [((5/2 : ℚ), ⟨2024, 4, 2⟩), ((10 : ℚ), ⟨2024, 5, 23⟩),
                      ((15 : ℚ), ⟨2024, 5, 23⟩), ((20 : ℚ), ⟨2024, 5, 23⟩)])),
   ("saxagliptin", ("yet", LPayload.noneP)),
   ("sitagliptin", ("yet", LPayload.noneP)),
   ("tamsulosin + solifenacin", ("launched", LPayload.dateP ⟨2023, 5, 8⟩)),
   ("tamsulosin", ("launched", LPayload.dateP ⟨2023, 5, 8⟩)),
   ("solifenacin", ("launched", LPayload.dateP ⟨2023, 5, 8⟩)),
   ("tapentadol", ("launched", LPayload.dateP ⟨2024, 2, 1⟩)),
   ("ticagrelor", ("yet", LPayload.noneP)),
   ("cyclogest", ("launched", LPayload.noneP)),
   ("progesterone", ("launched", LPayload.noneP)),
   ("luteum", ("launched", LPayload.noneP)),
   ("amelgen", ("launched", LPayload.noneP))]

/-- Python `min(payload.values())`; keeps the earliest date, first wins on
    ties. -/
def minDateL : DateD → List DateD → DateD
  | acc, [] => acc
  | acc, d :: ds => minDateL (if dlt d acc then d else acc) ds

/-- Python `get_launch_date` (lines 236-250): the single launch date, the
    strength-matched date, or for unknown strength the earliest date among
    all strength tiers. -/
def get_launch_date (product_name : String) (strength_mg : Option ℚ) : Option DateD :=
  match lookupStr LAUNCH_INFO (normalize_text product_name) with
  | none => none
  | some info =>
    if info.1 = "launched" then
      match info.2 with
      | LPayload.dateP d => some d
      | _ => none
    else if info.1 = "launched_by_strength" then
      match info.2 with
      | LPayload.dictP [] => none
      | LPayload.dictP (e :: es) =>
        (match strength_mg with
         | some sv => lookupQ (e :: es) sv
         | none => some (minDateL e.2 (es.map (fun kv => kv.2))))
      | _ => none
    else none

/-- Python `get_launch_status` (lines 252-257). -/
def get_launch_status (product_name : String) : Option String :=
  (lookupStr LAUNCH_INFO (normalize_text product_name)).map (fun info => info.1)

/- ===== PL-number regex and competitor scan (lines 149-176) ===== -/

def MY_COMPANY_NAME : String := "celix"

def DEFAULT_COMPETITOR_NAMES : List String :=
  ["glenmark", "cipla", "sun pharma", "dr reddy", "dr. reddy", "torrent", "lupin",
   "intas", "mankind", "micro labs", "zydus"]

/-- Case-insensitive literal prefix match (regex `re.IGNORECASE`), returning
    the rest of the input on success. -/
def ciPre : List Char → List Char → Option (List Char)
  | [], rest => some rest
  | _ :: _, [] => none
  | a :: as, b :: bs => if a.toLower = b.toLower then ciPre as bs else none

/-- Take exactly `n` decimal digits from the front. -/
def takeDigits : Nat → List Char → Option (List Char × List Char)
  | 0, rest => some ([], rest)
  | _ + 1, [] => none
  | n + 1, c :: rest =>
    if isDigitC c then
      match takeDigits n rest with
      | some (g, r) => some (c :: g, r)
      | none => none
    else none

/-- Greedy `[0-9]{4,5}` followed by `\b`: try five digits, backtrack to
    four, each time requiring a non-word character (or the end) after the
    group. -/
def grp45 (s : List Char) : Option (List Char × List Char) :=
  match takeDigits 5 s with
  | some (g, r) =>
    if afterOk r then some (g, r)
    else
      (match takeDigits 4 s with
       | some (g4, r4) => if afterOk r4 then some (g4, r4) else none
       | none => none)
  | none =>
    match takeDigits 4 s with
    | some (g4, r4) => if afterOk r4 then some (g4, r4) else none
    | none => none

/-- One alternative of `PL_PATTERN` at the current position: the prefix
    `alt`, then `\s*`, five digits, `\s*`, `/`, `\s*`, and a 4-5 digit
    group ending at a word boundary.  Returns the formatted
    `"<ALT> <5 digits>/<4-5 digits>"` string, the last matched character
    and the rest of the input. -/
def tryPLAlt (alt : String) (s : List Char) : Option (String × Char × List Char) :=
  match ciPre alt.data s with
  | none => none
  | some r1 =>
    match takeDigits 5 (r1.dropWhile isWsC) with
    | none => none
    | some (g2, r3) =>
      match r3.dropWhile isWsC with
      | '/' :: r5 =>
        (match grp45 (r5.dropWhile isWsC) with
         | some (g3, r7) =>
           match g3.getLast? with
           | some lastc =>
             some (alt ++ " " ++ String.mk g2 ++ "/" ++ String.mk g3, lastc, r7)
           | none => none
         | none => none)
      | _ => none

/-- The `(PL|PLGB|PLNI)` alternation, in the left-to-right order of the
    pattern with backtracking into the tail, guarded by the leading `\b`. -/
def tryPLAt (prev : Option Char) (s : List Char) : Option (String × Char × List Char) :=
  if boundaryOk prev then
    match tryPLAlt "PL" s with
    | some r => some r
    | none =>
      match tryPLAlt "PLGB" s with
      | some r => some r
      | none => tryPLAlt "PLNI" s
  else none

/-- Fuelled scan modelling `PL_PATTERN.finditer`: leftmost matches,
    non-overlapping, resuming right after each match (every match consumes
    at least one character, so `length + 1` fuel suffices). -/
def plScanF : Nat → Option Char → List Char → List String
  | 0, _, _ => []
  | _ + 1, _, [] => []
  | fuel + 1, prev, c :: rest =>
    match tryPLAt prev (c :: rest) with
    | some (out, lastc, r) => out :: plScanF fuel (some lastc) r
    | none => plScanF fuel (some c) rest

/-- Python `extract_pl_numbers` (lines 152-161). -/
def extract_pl_numbers (text : String) : List String :=
  plScanF (text.data.length + 1) none text.data

/-- Python `contains_competitor_name` (lines 166-176). -/
def contains_competitor_name (lot_text : String) (competitor_names : List String) : Bool :=
  if strEmptyB lot_text then false
  else
    let norm := lowerStr lot_text
    if strContainsSub MY_COMPANY_NAME norm then false
    else competitor_names.any (fun name =>
      let nm := stripStr (lowerStr name)
      !(strEmptyB nm) && strContainsSub nm norm)

/-- Python `str.title()` on ASCII letters: uppercase a letter after a
    non-letter, lowercase the rest (used only when a matched drug has no
    display text). -/
def titleAsciiAux : Bool → List Char → List Char
  | _, [] => []
  | prevAl, c :: rest =>
    (if isAl c then (if prevAl then c.toLower else c.toUpper) else c)
      :: titleAsciiAux (isAl c) rest

def titleAscii (s : String) : String := String.mk (titleAsciiAux false s.data)

/- ===== Extracted input records ===== -/

/-- The patient `hl7:player1/hl7:name` node (lines 388-406): `msk` is true
    when the node carries `nullFlavor="MSK"`; `givens` are the `hl7:given`
    child texts, `family` the `hl7:family` text and `directText` the node's
    own text (absent text is `""`). -/
structure NameNode where
  msk : Bool
  givens : List String
  family : String
  directText : String
deriving DecidableEq

/-- Patient fields of one case.  `nameNode` is the raw name node; the other
    six fields hold the values the extraction produced for them (already
    mapped and passed through `clean_value`, e.g. gender is
    `clean_value(map_gender(code))`); `record_no` is the OID-selected
    record number of lines 421-431, which the source does NOT pass through
    `clean_value`. -/
structure PatientRaw where
  nameNode : Option NameNode
  gender : String
  age_group : String
  age : String
  height : String
  weight : String
  record_no : String
deriving DecidableEq

/-- One suspect `hl7:substanceAdministration` node (lines 471-618), with
    the text values the extraction reads from it; absent nodes/texts are
    `""`.  `stop_str` is extracted (line 521) but the source stores a
    literal `None` for the drug stop date in `case_drug_dates_display`
    (line 618), so it never reaches the validity logic. -/
structure DrugNode where
  raw_drug_text : String
  dosage_text : String
  form_text : String
  lot_text : String
  mah_raw : String
  start_str : String
  stop_str : String
deriving DecidableEq

/-- One reaction observation (lines 626-686): the `hl7:value` node's
    presence and its `code`/`displayName` attributes, the displayNames of
    the seriousness criteria whose value is `"true"`, and the raw
    effectiveTime strings. -/
structure EventNode where
  value_present : Bool
  value_code : String
  value_displayName : String
  crit_true : List String
  evt_low_str : String
  evt_high_str : String
deriving DecidableEq

/-- One row of the LLT-PT mapping table (code column pre-stripped at load,
    line 303). -/
structure MappingRow where
  llt_code : String
  llt_term : String
  pt_term : String
deriving DecidableEq

/-- One entry of `case_drug_dates_display` (line 618): matched product,
    strength (always `None` in the source), parsed start date, and a
    literal `None` stop date. -/
structure DrugRow where
  prod : String
  strength : Option ℚ
  start : Option DateD
  stop : Option DateD
deriving DecidableEq

/-- The per-case values the XML extraction layer produces, inputs of the
    judgment pipeline: patient fields, causality-suspect ids, the suspect
    drug nodes (those whose id is in `suspect_ids`), the reaction nodes,
    and the three raw global date strings FRD (last `low` value in the
    document), LRD (first `availabilityTime`) and TD (`creationTime`). -/
structure CaseInput where
  patient : PatientRaw
  suspect_ids : List String
  suspect_drugs : List DrugNode
  events : List EventNode
  frd_raw : String
  lrd_raw : String
  td_raw : String
deriving DecidableEq

/- ===== Patient summary (lines 388-450) ===== -/

/-- Patient initials extraction (lines 388-405): `"Masked"` for a masked
    name node, else the uppercased first letters of the given names and
    family name, else the node's own stripped text. -/
def initialsOf : Option NameNode → String
  | none => ""
  | some nn =>
    if nn.msk then "Masked"
    else
      let gi := nn.givens.filterMap (fun g =>
        match (stripStr g).data with
        | [] => none
        | c :: _ => some c.toUpper)
      let parts :=
        match (stripStr nn.family).data with
        | [] => gi
        | c :: _ => gi ++ [c.toUpper]
      match parts with
      | [] => stripStr nn.directText
      | _ :: _ => String.mk parts

/-- `patient_initials` after the `clean_value` at line 406. -/
def patient_initials_of (p : PatientRaw) : String := clean_value (initialsOf p.nameNode)

/-- The `patient_parts` list (lines 433-447): one labelled fragment per
    present field, in the fixed source order. -/
def patient_parts (p : PatientRaw) : List String :=
  (if strEmptyB (patient_initials_of p) then [] else ["Initials: " ++ patient_initials_of p])
  ++ (if strEmptyB p.gender then [] else ["Gender: " ++ p.gender])
  ++ (if strEmptyB p.age_group then [] else ["Age Group: " ++ p.age_group])
  ++ (if strEmptyB p.age then [] else ["Age: " ++ p.age])
  ++ (if strEmptyB p.height then [] else ["Height: " ++ p.height])
  ++ (if strEmptyB p.weight then [] else ["Weight: " ++ p.weight])
  ++ (if strEmptyB p.record_no then [] else ["Record No: " ++ p.record_no])

/-- The composed patient summary, `", ".join(patient_parts)` (line 448). -/
def patient_detail (p : PatientRaw) : String := joinSep ", " (patient_parts p)

/-- Line 450: `any([patient_initials, gender, age_group, age, height,
    weight])` — note `patient_record_no` is not in this list. -/
def has_any_patient_detail (p : PatientRaw) : Bool :=
  !(strEmptyB (patient_initials_of p)) || !(strEmptyB p.gender)
    || !(strEmptyB p.age_group) || !(strEmptyB p.age)
    || !(strEmptyB p.height) || !(strEmptyB p.weight)

/- ===== Suspect drug processing (lines 471-618) ===== -/

def matchedName (d : DrugNode) : String := contains_company_product d.raw_drug_text

/-- The suspect drugs whose name matched the company vocabulary; all the
    per-drug lists below are built only from these (the source guards the
    whole block with `if matched_company_prod:`). -/
def matchedDrugsL (ds : List DrugNode) : List DrugNode :=
  ds.filter (fun d => !(strEmptyB (matchedName d)))

def matchedDrugs (c : CaseInput) : List DrugNode := matchedDrugsL c.suspect_drugs

/-- `case_products_norm` (line 466, filled at line 505): the set of
    normalized matched product keys, modelled as the first-occurrence
    deduplicated list (every use in the source is order-insensitive). -/
def case_products_norm (c : CaseInput) : List String :=
  ((matchedDrugs c).map (fun d => normalize_text (matchedName d))).eraseDups

/-- `case_has_category2` (lines 508-509). -/
def case_has_category2 (c : CaseInput) : Bool :=
  (matchedDrugs c).any (fun d => category2_products.contains (normalize_text (matchedName d)))

/-- `case_displayed_mahs` (line 584): the cleaned MAH name of every matched
    drug, in order. -/
def case_displayed_mahs (c : CaseInput) : List String :=
  (matchedDrugs c).map (fun d => clean_value d.mah_raw)

/-- `case_drug_dates_display` (line 618). -/
def case_drug_rows (c : CaseInput) : List DrugRow :=
  (matchedDrugs c).map (fun d => ⟨matchedName d, none, parse_date_obj d.start_str, none⟩)

/-- `display_name_for_detail` (lines 541-542) and equally the
    `pretty_name` of line 506 after its `clean_value`. -/
def displayNameOf (d : DrugNode) : String :=
  clean_value (if strEmptyB d.raw_drug_text then titleAscii (matchedName d) else d.raw_drug_text)

/-- The per-drug non-valid assessment of lines 600-615: no patient
    details, else launch status `yet`/`awaited`, else drug start date
    strictly before the launch date. -/
def perDrugReason (hasPat : Bool) (d : DrugNode) : String :=
  if !hasPat then "No patient details"
  else
    if (match get_launch_status (matchedName d) with
        | some s => (s == "yet") || (s == "awaited")
        | none => false) then "Product not Launched"
    else
      match get_launch_date (matchedName d) none, parse_date_obj d.start_str with
      | some l, some sd => if dlt sd l then "Drug exposure prior to Launch; Drug" else ""
      | some _, none => ""
      | none, _ => ""

/-- `displayed_drugs_assessment` (line 616). -/
def displayed_assessment (c : CaseInput) : List (String × String) :=
  (matchedDrugs c).map (fun d =>
    ((if strEmptyB (displayNameOf d) then "Unknown product" else displayNameOf d),
     perDrugReason (has_any_patient_detail c.patient) d))

/-- The comment strings one matched drug contributes (lines 579-595), in
    source order: the lot verification comment, the PL-number comments over
    the four displayed texts, the competitor-lot comment and the
    MAH-mismatch comment. -/
def drugComments (d : DrugNode) : List String :=
  let dn := displayNameOf d
  let text_clean := clean_value d.dosage_text
  let form_clean := clean_value d.form_text
  let lot_clean := clean_value d.lot_text
  let mah_clean := clean_value d.mah_raw
  (if hasAlnum lot_clean then ["Verify Lot No with Celix-Lot No List"] else [])
  ++ (([dn, text_clean, form_clean, lot_clean].map (fun t =>
        (extract_pl_numbers t).map (fun pl =>
          if strEmptyB dn then "plz check product name: " ++ pl ++ " given"
          else "plz check product name as " ++ dn ++ " " ++ pl ++ " given"))).flatten)
  ++ (if !(strEmptyB lot_clean) && contains_competitor_name lot_clean DEFAULT_COMPETITOR_NAMES then
        ["Lot number \x27" ++ lot_clean ++ "\x27 may belong to another company — please verify."]
      else [])
  ++ (if !(strEmptyB mah_clean) && !(strContainsSub MY_COMPANY_NAME (lowerStr mah_clean)) then
        ["MAH \x27" ++ mah_clean ++ "\x27 differs from Celix — please verify."]
      else [])

/-- The case-level `comments` list. -/
def comments_of (c : CaseInput) : List String :=
  ((matchedDrugs c).map drugComments).flatten

/-- `product_norm_to_pretty` (line 467, `setdefault` at line 507): first
    writer wins per normalized key. -/
def prettyMapL (ds : List DrugNode) : List (String × String) :=
  ds.foldl (fun acc d =>
    let k := normalize_text (matchedName d)
    if (lookupStr acc k).isSome then acc else acc ++ [(k, displayNameOf d)]) []

def prettyOf (c : CaseInput) (k : String) : String :=
  (lookupStr (prettyMapL (matchedDrugs c)) k).getD k

/- ===== Event processing (lines 626-686) ===== -/

def seriousness_map : List (String × String) :=
  [("resultsInDeath", "Death"),
   ("isLifeThreatening", "LT"),
   ("requiresInpatientHospitalization", "Hospital"),
   ("resultsInPersistentOrSignificantDisability", "Disability"),
   ("congenitalAnomalyBirthDefect", "Congenital"),
   ("otherMedicallyImportantCondition", "IME")]

/-- `seriousness_flags` of one reaction (lines 653-657). -/
def seriousFlags (e : EventNode) : List String :=
  seriousness_map.filterMap (fun kv => if e.crit_true.contains kv.1 then some kv.2 else none)

def case_has_serious (c : CaseInput) : Bool :=
  c.events.any (fun e => !(seriousFlags e).isEmpty)

def findRow (tbl : List MappingRow) (code : String) : Option MappingRow :=
  tbl.find? (fun r => r.llt_code == code)

/-- Lines 629-650: resolve the event term against the optional mapping
    table, producing the term and the warning strings this event adds.
    A missing row leaves the term empty and records the not-found warning;
    line 647-648 then falls back to the `displayName` attribute. -/
def resolveEvent (mapping? : Option (List MappingRow)) (ev : EventNode) : String × List String :=
  let llt_code := if ev.value_present then ev.value_code else ""
  let step1 : String × List String :=
    match mapping? with
    | some tbl =>
      if strEmptyB llt_code then ("", [])
      else
        let code_str := stripStr llt_code
        match findRow tbl code_str with
        | some row => (row.llt_term, [])
        | none =>
          ("", ["LLT code " ++ code_str
                ++ " not found in mapping file — LLT/PT terms unavailable for this event."])
    | none =>
      if strEmptyB llt_code then ("", [])
      else ("", ["LLT mapping file not provided — LLT/PT terms unavailable for code "
                 ++ llt_code ++ "."])
  let t1 :=
    if strEmptyB step1.1 && ev.value_present then
      (if strEmptyB ev.value_displayName then step1.1 else ev.value_displayName)
    else step1.1
  (t1, step1.2)

/-- `event_llts_norm` (lines 650-651). -/
def event_llts (mapping? : Option (List MappingRow)) (c : CaseInput) : List String :=
  c.events.map (fun e => normalize_text (resolveEvent mapping? e).1)

/-- The per-case `warnings` list contributed by event term resolution. -/
def case_warnings (mapping? : Option (List MappingRow)) (c : CaseInput) : List String :=
  (c.events.map (fun e => (resolveEvent mapping? e).2)).flatten

/-- `case_event_dates` (lines 666-674). -/
def case_event_dates (c : CaseInput) : List (Option DateD × Option DateD) :=
  c.events.map (fun e => (parse_date_obj e.evt_low_str, parse_date_obj e.evt_high_str))

/- ===== Validity, reportability and listedness (lines 690, 741-841) ===== -/

/-- Rule 1 of the validity state machine: no surviving demographic field
    (line 745). -/
def rule_no_patient (c : CaseInput) : Bool := !(has_any_patient_detail c.patient)

/-- The MAH sub-check of lines 751-753. -/
def hasNonCelixMah (c : CaseInput) : Bool :=
  (case_displayed_mahs c).any (fun nm =>
    !(strEmptyB nm) && !(strContainsSub MY_COMPANY_NAME (lowerStr nm)))

/-- Rule 2: non-company product — suspects exist but none matched the
    vocabulary (line 748), or a displayed MAH does not mention the company
    (lines 751-753). -/
def rule_non_company (c : CaseInput) : Bool :=
  (!(c.suspect_ids.isEmpty) && (case_products_norm c).isEmpty)
  || (!(case_displayed_mahs c).isEmpty && hasNonCelixMah c)

/-- Rule 3: some matched product has launch status `yet`/`awaited`
    (lines 755-760). -/
def rule_not_launched (c : CaseInput) : Bool :=
  (case_drug_rows c).any (fun r =>
    match get_launch_status r.prod with
    | some s => (s == "yet") || (s == "awaited")
    | none => false)

/-- `earliest_launch_dt` (lines 762-767): earliest known launch date over
    the matched drug rows, first row winning ties. -/
def earliest_launch (c : CaseInput) : Option DateD :=
  (case_drug_rows c).foldl (fun acc r =>
    if strEmptyB r.prod then acc
    else
      match get_launch_date r.prod r.strength with
      | some ld =>
        (match acc with
         | none => some ld
         | some cur => some (if dlt ld cur then ld else cur))
      | none => acc) none

def optLt : Option DateD → DateD → Bool
  | none, _ => false
  | some d, l => dlt d l

/-- The exposure tags of lines 771-790, in source append order
    FRD, LRD, Event, Drug. -/
def exposure_tags (c : CaseInput) (l : DateD) : List String :=
  (if optLt (parse_date_obj c.frd_raw) l then ["FRD"] else [])
  ++ (if optLt (parse_date_obj c.lrd_raw) l then ["LRD"] else [])
  ++ (if (case_event_dates c).any (fun pr => optLt pr.1 l || optLt pr.2 l) then ["Event"] else [])
  ++ (if (case_drug_rows c).any (fun r => !(strEmptyB r.prod) && optLt r.start l) then ["Drug"] else [])

/-- Rule 4: exposure prior to launch fires when a launch date is known and
    at least one tagged date precedes it. -/
def rule_exposure (c : CaseInput) : Bool :=
  match earliest_launch c with
  | none => false
  | some l => !(exposure_tags c l).isEmpty

/-- `validity_reason` (lines 741-792), the sequential first-match-wins
    chain of the source. -/
def validity_reason (c : CaseInput) : Option String :=
  if rule_no_patient c then some "No patient details"
  else if !(c.suspect_ids.isEmpty) && (case_products_norm c).isEmpty then
    some "Non-company product"
  else if !(case_displayed_mahs c).isEmpty && hasNonCelixMah c then
    some "Non-company product"
  else if rule_not_launched c then some "Product not Launched"
  else
    match earliest_launch c with
    | none => none
    | some l =>
      let tags := exposure_tags c l
      if tags.isEmpty then none
      else some ("Drug exposure prior to Launch; "
                 ++ joinSep ", " (sortByKey (fun x => x) tags.eraseDups))

/-- `validity_value` as first assigned at line 794. -/
def validity_base (c : CaseInput) : String :=
  match validity_reason c with
  | some r => "Non-Valid (" ++ r ++ ")"
  | none => "Valid"

/-- `validity_value` after the manual-review override of lines 800-801. -/
def validity_mid (c : CaseInput) : String :=
  if !(comments_of c).isEmpty && (validity_reason c).isNone then
    "Kindly check comment and assess validity manually"
  else validity_base c

/-- `is_non_valid_case` (line 806), also the test of lines 803-804. -/
def is_non_valid_case (c : CaseInput) : Bool := strStarts "Non-Valid" (validity_mid c)

/-- `reportability` (line 690) with the override of lines 803-804. -/
def reportability_of (c : CaseInput) : String :=
  if is_non_valid_case c then "NA"
  else if case_has_serious c && case_has_category2 c then "Category 2, serious, reportable case"
  else "Non-Reportable"

/-- `per_drug_nonvalid_lines` (line 817). -/
def per_drug_nonvalid_lines (c : CaseInput) : List String :=
  (displayed_assessment c).filterMap (fun pr =>
    if strEmptyB pr.2 then none else some (pr.1 ++ ": " ++ pr.2))

/-- The final `validity_value` with the drug-wise suffix of lines 817-820:
    appended when there are two or more displayed drugs, every one of them
    has a per-drug reason, and the verdict starts with "Non-Valid". -/
def validity_of (c : CaseInput) : String :=
  if 1 < (displayed_assessment c).length
      ∧ (per_drug_nonvalid_lines c).length = (displayed_assessment c).length
      ∧ is_non_valid_case c = true then
    validity_mid c ++ " \n Drug-wise: " ++ joinSep "; " (per_drug_nonvalid_lines c)
  else validity_mid c

/-- Per-event listedness lines (lines 828-830 and 837-839): `eventLines
    prods pairs k llts` numbers events from `k`; an event is Listed when
    some product of `prods` forms a reference pair with its term. -/
def eventLines (prods : List String) (pairs : List (String × String)) :
    Nat → List String → List String
  | _, [] => []
  | k, t :: ts =>
    ("Event " ++ toString k ++ ": "
      ++ (if prods.any (fun p => pairs.contains (p, t)) then "Listed" else "Unlisted"))
      :: eventLines prods pairs (k + 1) ts

/-- The Listedness column (lines 822-841 and 853): blank for a non-valid
    case or without events; per-event lines when at most one matched
    product; one line per product (sorted by pretty name) when there are
    two or more. -/
def listedness_of (mapping? : Option (List MappingRow)) (pairs : List (String × String))
    (c : CaseInput) : String :=
  if is_non_valid_case c then ""
  else
    let llts := event_llts mapping? c
    if llts.isEmpty then ""
    else
      let prods := case_products_norm c
      if prods.length ≤ 1 then joinSep "\n" (eventLines prods pairs 1 llts)
      else
        joinSep "\n" ((sortByKey (fun k => prettyOf c k) prods).map (fun p =>
          prettyOf c p ++ " - " ++ joinSep "; " (eventLines [p] pairs 1 llts)))

/-- Drop the dosage, formulation and lot texts of every suspect drug: the
    inputs that feed only the comment detectors (the display name and MAH
    also feed validity and are kept). -/
def eraseAdvisoryTexts (c : CaseInput) : CaseInput :=
  { c with suspect_drugs := c.suspect_drugs.map (fun d =>
      { d with dosage_text := "", form_text := "", lot_text := "" }) }

/- ===== Concrete inputs used by witnesses and counterexamples ===== -/

def exPatientGender : PatientRaw := ⟨none, "Female", "", "", "", "", ""⟩

def exPatientEmpty : PatientRaw := ⟨none, "", "", "", "", "", ""⟩

def exPatientRecordOnly : PatientRaw := ⟨none, "", "", "", "", "", "PRN-1"⟩

def exPatientMsk : PatientRaw := ⟨some ⟨true, [], "", ""⟩, "", "", "", "", "", ""⟩

def exDrugAbi : DrugNode := ⟨"Abiraterone Tablets", "", "", "", "Celix Pharma", "20230105", ""⟩

def exDrugAbiEarly : DrugNode := ⟨"Abiraterone Tablets", "", "", "", "Celix Pharma", "20220105", ""⟩

def exDrugAbiShort : DrugNode := ⟨"Abiraterone", "", "", "", "Celix Pharma", "", ""⟩

def exDrugRano : DrugNode := ⟨"Ranolazine", "", "", "", "Celix Pharma", "", ""⟩

def exDrugTap : DrugNode := ⟨"Tapentadol", "", "", "", "Celix Pharma", "", ""⟩

def exDrugPL : DrugNode := ⟨"Abiraterone Tablets", "", "PL 12345/6789", "", "Celix Pharma", "20230105", ""⟩

def exDrugLot : DrugNode := ⟨"Abiraterone Tablets", "", "", "B123", "Celix Pharma", "20230105", ""⟩

def exEventHeadache : EventNode := ⟨true, "10019211", "Headache", [], "", ""⟩

def exEventSerious : EventNode := ⟨true, "10028813", "Nausea", ["resultsInDeath"], "", ""⟩

def exMapTbl : List MappingRow := [⟨"10000001", "Abdominal pain", "Abdominal pain"⟩]

/-- A Valid single-product case with one event (used against claim C1). -/
def exCaseListedness : CaseInput :=
  ⟨exPatientGender, ["d1"], [exDrugAbi], [exEventHeadache], "20230105", "", "20230914"⟩

/-- A case with two matched drugs and no patient detail (claim C2). -/
def exCaseTwoDrugs : CaseInput :=
  ⟨exPatientEmpty, ["d1", "d2"], [exDrugAbiShort, exDrugRano], [], "", "", ""⟩

/-- A non-valid case that is nevertheless serious and category 2 (claim C3). -/
def exCaseNonValidSerious : CaseInput :=
  ⟨exPatientEmpty, ["d1"], [exDrugTap], [exEventSerious], "", "", ""⟩

/-- A case whose transmission date precedes the launch date while every
    date the code actually checks lies after it (claim C4). -/
def exCaseTd : CaseInput :=
  ⟨exPatientGender, ["d1"], [exDrugAbi], [], "20230105", "", "20220101"⟩

/-- A case whose drug start and FRD precede the launch date (claim C4). -/
def exCaseExposure : CaseInput :=
  ⟨exPatientGender, ["d1"], [exDrugAbiEarly], [], "20220105", "", ""⟩

/-- A no-rule case with no comment trigger at all (claim C2 witness). -/
def exCaseNoPatient : CaseInput := ⟨exPatientEmpty, [], [], [], "", "", ""⟩

/-- A case whose only comment comes from the PL-number detector (claim C8). -/
def exCasePL : CaseInput := ⟨exPatientGender, ["d1"], [exDrugPL], [], "", "", ""⟩

/-- A case with a masked patient name and nothing else (claim C9). -/
def exCaseMsk : CaseInput := ⟨exPatientMsk, [], [], [], "", "", ""⟩

/-- A case with an alphanumeric lot number (claim C10). -/
def exCaseLot : CaseInput := ⟨exPatientGender, ["d1"], [exDrugLot], [], "", "", ""⟩

/-- A Valid case with TWO distinct matched products and one event,
    exercising the per-product listedness branch of lines 832-841
    (claim C1). -/
def exCaseTwoProdValid : CaseInput :=
  ⟨exPatientGender, ["d1", "d2"], [exDrugAbiShort, exDrugRano], [exEventHeadache], "", "", ""⟩

/- ===== General lemmas ===== -/

theorem strData_append (s t : String) : (s ++ t).data = s.data ++ t.data := by
  cases s
  cases t
  rfl

theorem strEq_of_data : ∀ (s t : String), s.data = t.data → s = t
  | ⟨_⟩, ⟨_⟩, rfl => rfl

theorem isPreL_append : ∀ (p q r : List Char), isPreL p q = true → isPreL p (q ++ r) = true
  | [], _, _, _ => rfl
  | _ :: _, [], _, h => by simp [isPreL] at h
  | a :: as, b :: bs, r, h => by
    simp only [isPreL, Bool.and_eq_true, decide_eq_true_eq] at h
    simp only [List.cons_append, isPreL, Bool.and_eq_true, decide_eq_true_eq]
    exact ⟨h.1, isPreL_append as bs r h.2⟩

theorem isPreL_refl : ∀ (l : List Char), isPreL l l = true
  | [] => rfl
  | a :: as => by simp [isPreL, isPreL_refl as]

theorem strStarts_append (p s t : String) (h : strStarts p s = true) :
    strStarts p (s ++ t) = true := by
  unfold strStarts at h ⊢
  rw [strData_append]
  exact isPreL_append p.data s.data t.data h

theorem strStarts_self (s : String) : strStarts s s = true := isPreL_refl s.data

theorem ne_of_starts (p a b : String) (h1 : strStarts p a = true)
    (h2 : strStarts p b = false) : a ≠ b := by
  intro he
  rw [he, h2] at h1
  cases h1

theorem strEmptyB_iff (s : String) : strEmptyB s = true ↔ s.data = [] := by
  unfold strEmptyB
  cases s.data with
  | nil => simp
  | cons a l => simp

theorem strEmptyB_append_left (s t : String) (h : strEmptyB s = false) :
    strEmptyB (s ++ t) = false := by
  unfold strEmptyB at h ⊢
  rw [strData_append]
  cases hs : s.data with
  | nil => rw [hs] at h; exact absurd h (by simp)
  | cons a l => simp

theorem joinSep_cons_ne_empty (sep x : String) (xs : List String)
    (h : strEmptyB x = false) : strEmptyB (joinSep sep (x :: xs)) = false := by
  cases xs with
  | nil => exact h
  | cons y rest =>
    show strEmptyB (x ++ sep ++ joinSep sep (y :: rest)) = false
    exact strEmptyB_append_left _ _ (strEmptyB_append_left _ _ h)

theorem listAppend_cancel_left : ∀ (x a b : List Char), x ++ a = x ++ b → a = b
  | [], _, _, h => h
  | c :: cs, a, b, h => by
    simp only [List.cons_append, List.cons.injEq] at h
    exact listAppend_cancel_left cs a b h.2

theorem strAppend_right_inj (x a b : String) (h : x ++ a = x ++ b) : a = b := by
  apply strEq_of_data
  have hd := congrArg String.data h
  rw [strData_append, strData_append] at hd
  exact listAppend_cancel_left x.data a.data b.data hd

/- ===== Claim C6 ===== -/

/-- Claim C6: the Date Normalizer maps "20230615" to display "15-Jun-2023"
    with comparable date 2023-06-15; "202306" to "Jun-2023" with comparable
    date 2023-06-30 (month rounded up to its last calendar day); "2023" to
    "2023" with comparable date 2023-12-31; "" to empty display and absent
    comparable date; an invalid date such as "20231301" and any input with
    fewer than four digits yield empty/absent outputs (parse failures are
    modelled as exactly these empty/absent results, and the Lean functions
    are total, the embedded form of "never raises"). -/
theorem claim6_date_normalizer :
    (format_date "20230615" = "15-Jun-2023" ∧ parse_date_obj "20230615" = some ⟨2023, 6, 15⟩
      ∧ format_date "202306" = "Jun-2023" ∧ parse_date_obj "202306" = some ⟨2023, 6, 30⟩
      ∧ format_date "2023" = "2023" ∧ parse_date_obj "2023" = some ⟨2023, 12, 31⟩
      ∧ format_date "" = "" ∧ parse_date_obj "" = none
      ∧ format_date "20231301" = "" ∧ parse_date_obj "20231301" = none)
    ∧ ∀ s : String, (digitsOnly s).length < 4 →
        format_date s = "" ∧ parse_date_obj s = none := by
  constructor
  · exact ⟨by decide, by decide, by decide, by decide, by decide,
      by decide, by decide, by decide, by decide, by decide⟩
  · intro s h
    have h8 : ¬ (8 ≤ (digitsOnly s).length) := by omega
    have h6 : ¬ (6 ≤ (digitsOnly s).length) := by omega
    have h4 : ¬ (4 ≤ (digitsOnly s).length) := by omega
    constructor
    · unfold format_date
      by_cases hs : s = ""
      · simp [hs]
      · simp [hs, h8, h6, h4]
    · unfold parse_date_obj
      by_cases hs : s = ""
      · simp [hs]
      · simp [hs, h8, h6, h4]

/-- Witness for claim C6's universally quantified failure clause, at the
    concrete input "ab1". -/
theorem claim6_witness : format_date "ab1" = "" ∧ parse_date_obj "ab1" = none :=
  claim6_date_normalizer.2 "ab1" (by decide)

/- ===== Bridge lemmas about the validity strings ===== -/

theorem nv_valid_false : strStarts "Non-Valid" "Valid" = false := by decide

theorem nv_kindly_false :
    strStarts "Non-Valid" "Kindly check comment and assess validity manually" = false := by
  decide

theorem startsNV_base (r : String) :
    strStarts "Non-Valid" ("Non-Valid (" ++ r ++ ")") = true := by
  apply strStarts_append
  apply strStarts_append
  decide

theorem startsNV_final (c : CaseInput) :
    strStarts "Non-Valid" (validity_of c) = is_non_valid_case c := by
  unfold validity_of
  split
  · next hcond =>
    rw [hcond.2.2]
    exact strStarts_append _ _ _ (strStarts_append _ _ _ hcond.2.2)
  · next => rfl

theorem filter_map_comm {α β : Type} (f : β → α) (p : α → Bool) :
    ∀ l : List β, (l.map f).filter p = (l.filter (fun b => p (f b))).map f
  | [] => rfl
  | b :: bs => by
    simp only [List.map_cons, List.filter_cons]
    by_cases h : p (f b) = true
    · simp [h, filter_map_comm f p bs]
    · simp [h, filter_map_comm f p bs]

/- ===== Claim C1 ===== -/

theorem eventLines_get (prods : List String) (pairs : List (String × String)) :
    ∀ (llts : List String) (k i : Nat),
      (eventLines prods pairs k llts).get? i =
        (llts.get? i).map (fun t =>
          "Event " ++ toString (k + i) ++ ": "
            ++ (if prods.any (fun p => pairs.contains (p, t)) then "Listed" else "Unlisted"))
  | [], _, _ => by simp [eventLines]
  | t :: ts, k, 0 => by simp [eventLines]
  | t :: ts, k, i + 1 => by
    have ih := eventLines_get prods pairs ts (k + 1) i
    simp only [eventLines, List.get?_cons_succ]
    rw [ih, show k + 1 + i = k + (i + 1) by omega]

/-- Claim C1 (amended): for every case that is not Non-Valid and has at
    least one extracted event, the Listedness column is assembled from
    exactly TWO outcomes per event.  With at most one distinct matched
    product it is the newline join of one line per event, the line of
    event `i` being "Event i+1: Listed" when some matched product forms a
    reference pair with the event's normalized term and
    "Event i+1: Unlisted" otherwise.  With two or more matched products it
    is one line per product (sorted by pretty name), each carrying the
    per-product event statuses, where event `i` is "Listed" for product
    `p` exactly when `(p, term)` is in the pair set.  In particular, with
    no listedness reference supplied (the empty pair set) every event
    resolves to "Unlisted" in both branches; the code never produces
    "Reference not uploaded" or "Reference not updated". -/
theorem claim1_two_outcomes (mapping? : Option (List MappingRow))
    (pairs : List (String × String)) (c : CaseInput) (i : Nat) (t : String)
    (hnv : is_non_valid_case c = false)
    (ht : (event_llts mapping? c).get? i = some t) :
    ((case_products_norm c).length ≤ 1 →
      listedness_of mapping? pairs c
        = joinSep "\n" (eventLines (case_products_norm c) pairs 1 (event_llts mapping? c)))
    ∧ (1 < (case_products_norm c).length →
      listedness_of mapping? pairs c
        = joinSep "\n" ((sortByKey (fun k => prettyOf c k) (case_products_norm c)).map
            (fun p => prettyOf c p ++ " - "
              ++ joinSep "; " (eventLines [p] pairs 1 (event_llts mapping? c)))))
    ∧ (eventLines (case_products_norm c) pairs 1 (event_llts mapping? c)).get? i
        = some ("Event " ++ toString (i + 1) ++ ": "
            ++ (if (case_products_norm c).any (fun p => pairs.contains (p, t))
                then "Listed" else "Unlisted"))
    ∧ (∀ p : String, (eventLines [p] pairs 1 (event_llts mapping? c)).get? i
        = some ("Event " ++ toString (i + 1) ++ ": "
            ++ (if pairs.contains (p, t) then "Listed" else "Unlisted")))
    ∧ (pairs = [] →
        (eventLines (case_products_norm c) pairs 1 (event_llts mapping? c)).get? i
          = some ("Event " ++ toString (i + 1) ++ ": " ++ "Unlisted")
        ∧ ∀ p : String, (eventLines [p] pairs 1 (event_llts mapping? c)).get? i
            = some ("Event " ++ toString (i + 1) ++ ": " ++ "Unlisted")) := by
  have hne : (event_llts mapping? c).isEmpty = false := by
    cases hl : event_llts mapping? c with
    | nil => rw [hl] at ht; cases ht
    | cons a l => simp [List.isEmpty]
  have hget : (eventLines (case_products_norm c) pairs 1 (event_llts mapping? c)).get? i
      = some ("Event " ++ toString (i + 1) ++ ": "
          ++ (if (case_products_norm c).any (fun p => pairs.contains (p, t))
              then "Listed" else "Unlisted")) := by
    rw [eventLines_get, ht]
    simp only [Option.map_some']
    rw [Nat.add_comm 1 i]
  have hgetp : ∀ p : String, (eventLines [p] pairs 1 (event_llts mapping? c)).get? i
      = some ("Event " ++ toString (i + 1) ++ ": "
          ++ (if pairs.contains (p, t) then "Listed" else "Unlisted")) := by
    intro p
    rw [eventLines_get, ht]
    simp only [Option.map_some', List.any_cons, List.any_nil, Bool.or_false]
    rw [Nat.add_comm 1 i]
  refine ⟨?_, ?_, hget, hgetp, ?_⟩
  · intro hp
    unfold listedness_of
    simp [hnv, hne, hp]
  · intro hp
    have hp2 : ¬ ((case_products_norm c).length ≤ 1) := by omega
    unfold listedness_of
    simp [hnv, hne, hp2]
  · intro hpe
    constructor
    · rw [hget, hpe]
      simp
    · intro p
      rw [hgetp p, hpe]
      simp

/-- Claim C1 counterexample: `exCaseListedness` is a Valid case with one
    extracted event, evaluated with no listedness reference at all (the
    empty pair set — the code keeps `listedness_pairs = set()` when no file
    is uploaded, lines 305-313), yet its Listedness value is
    "Event 1: Unlisted" and not "Event 1: Reference not uploaded" as the
    claim requires; the code has no "Reference not uploaded" or
    "Reference not updated" outcome. -/
theorem claim1_counterexample :
    validity_of exCaseListedness = "Valid"
    ∧ (event_llts none exCaseListedness).length = 1
    ∧ listedness_of none [] exCaseListedness = "Event 1: Unlisted"
    ∧ listedness_of none [] exCaseListedness ≠ "Event 1: Reference not uploaded" :=
  ⟨by decide, by decide, by decide, by decide⟩

/-- Witness for claim C1's amended theorem at `exCaseTwoProdValid`, a
    concrete Valid case with two matched products: the multi-product
    display equation and the per-product line of "ranolazine". -/
theorem claim1_witness :
    (listedness_of none [("abiraterone", "headache")] exCaseTwoProdValid
      = joinSep "\n" ((sortByKey (fun k => prettyOf exCaseTwoProdValid k)
          (case_products_norm exCaseTwoProdValid)).map
            (fun p => prettyOf exCaseTwoProdValid p ++ " - "
              ++ joinSep "; " (eventLines [p] [("abiraterone", "headache")] 1
                   (event_llts none exCaseTwoProdValid)))))
    ∧ (eventLines ["ranolazine"] [("abiraterone", "headache")] 1
        (event_llts none exCaseTwoProdValid)).get? 0
      = some ("Event " ++ toString (0 + 1) ++ ": "
          ++ (if [("abiraterone", "headache")].contains (("ranolazine", "headache"))
              then "Listed" else "Unlisted")) :=
  ⟨(claim1_two_outcomes none [("abiraterone", "headache")] exCaseTwoProdValid 0 "headache"
      (by decide) (by decide)).2.1 (by decide),
   (claim1_two_outcomes none [("abiraterone", "headache")] exCaseTwoProdValid 0 "headache"
      (by decide) (by decide)).2.2.2.1 "ranolazine"⟩

/- ===== Claim C2 ===== -/

/-- Claim C2 (amended): the case-level validity reason is computed by the
    four non-valid rules in fixed priority order — (1) no surviving
    demographic field, (2) non-company product (no vocabulary match among
    the suspects, or a displayed MAH not mentioning the company), (3)
    product not launched, (4) drug exposure prior to launch — with the
    first applicable rule winning, so the case-level reason is unique.
    Every case with zero surviving demographic fields has the reason
    "No patient details" and a Validity string starting with
    "Non-Valid (No patient details)"; the string is exactly
    "Non-Valid (No patient details)" when at most one company suspect drug
    is displayed (with two or more, lines 817-820 append a per-drug
    "Drug-wise" breakdown to the same verdict, which falsifies the literal
    equality of the claim). -/
theorem claim2_priority (c : CaseInput) :
    (rule_no_patient c = true → validity_reason c = some "No patient details")
    ∧ (rule_no_patient c = false → rule_non_company c = true →
        validity_reason c = some "Non-company product")
    ∧ (rule_no_patient c = false → rule_non_company c = false → rule_not_launched c = true →
        validity_reason c = some "Product not Launched")
    ∧ (rule_no_patient c = false → rule_non_company c = false → rule_not_launched c = false →
        rule_exposure c = false → validity_reason c = none)
    ∧ (rule_no_patient c = false → rule_non_company c = false → rule_not_launched c = false →
        rule_exposure c = true → ∃ s, validity_reason c = some s
          ∧ strStarts "Drug exposure prior to Launch" s = true)
    ∧ (rule_no_patient c = true →
        strStarts "Non-Valid (No patient details)" (validity_of c) = true)
    ∧ (rule_no_patient c = true → (matchedDrugs c).length ≤ 1 →
        validity_of c = "Non-Valid (No patient details)") := by
  have hmid : rule_no_patient c = true → validity_mid c = "Non-Valid (No patient details)" := by
    intro h
    have hr : validity_reason c = some "No patient details" := by
      simp [validity_reason, h]
    unfold validity_mid
    rw [hr]
    simp [validity_base, hr]
  refine ⟨?_, ?_, ?_, ?_, ?_, ?_, ?_⟩
  · intro h
    simp [validity_reason, h]
  · intro h1 h2
    simp only [rule_non_company, Bool.or_eq_true] at h2
    by_cases hA : (!(c.suspect_ids.isEmpty) && (case_products_norm c).isEmpty) = true
    · simp [validity_reason, h1, hA]
    · rcases h2 with h2 | h2
      · exact absurd h2 hA
      · simp [validity_reason, h1, hA, h2]
  · intro h1 h2 h3
    simp only [rule_non_company, Bool.or_eq_false_iff] at h2
    simp [validity_reason, h1, h2.1, h2.2, h3]
  · intro h1 h2 h3 h4
    simp only [rule_non_company, Bool.or_eq_false_iff] at h2
    unfold validity_reason
    simp only [h1, h2.1, h2.2, h3, Bool.false_eq_true, if_false]
    cases he : earliest_launch c with
    | none => simp
    | some l =>
      simp only [rule_exposure, he] at h4
      have h4e : exposure_tags c l = [] := by
        cases hlist : exposure_tags c l with
        | nil => rfl
        | cons a tl =>
          rw [hlist] at h4
          simp [List.isEmpty] at h4
      simp [h4e]
  · intro h1 h2 h3 h4
    simp only [rule_non_company, Bool.or_eq_false_iff] at h2
    unfold validity_reason
    simp only [h1, h2.1, h2.2, h3, Bool.false_eq_true, if_false]
    cases he : earliest_launch c with
    | none =>
      simp only [rule_exposure, he] at h4
      cases h4
    | some l =>
      simp only [rule_exposure, he, Bool.not_eq_true'] at h4
      simp only [h4, Bool.false_eq_true, if_false]
      refine ⟨_, rfl, ?_⟩
      exact strStarts_append _ _ _ (by decide)
  · intro h
    have hm := hmid h
    unfold validity_of
    split
    · rw [hm]
      exact strStarts_append _ _ _ (strStarts_append _ _ _ (by decide))
    · rw [hm]
      decide
  · intro h hlen
    have hm := hmid h
    unfold validity_of
    rw [if_neg]
    · exact hm
    · intro hcond
      have : (displayed_assessment c).length = (matchedDrugs c).length := by
        simp [displayed_assessment]
      omega

/-- Claim C2 counterexample: `exCaseTwoDrugs` has zero surviving
    demographic fields and two displayed company drugs; its Validity is
    the "Non-Valid (No patient details)" verdict with the "Drug-wise"
    breakdown appended (lines 817-820), so it is not literally equal to
    "Non-Valid (No patient details)" as the claim requires. -/
theorem claim2_counterexample :
    has_any_patient_detail exCaseTwoDrugs.patient = false
    ∧ validity_of exCaseTwoDrugs
        = "Non-Valid (No patient details) \n Drug-wise: Abiraterone: No patient details; Ranolazine: No patient details"
    ∧ validity_of exCaseTwoDrugs ≠ "Non-Valid (No patient details)" :=
  ⟨by decide, by decide, by decide⟩

/-- Witness for claim C2's amended theorem: a concrete case with no
    patient detail and no displayed drug gets exactly the
    "Non-Valid (No patient details)" verdict. -/
theorem claim2_witness : validity_of exCaseNoPatient = "Non-Valid (No patient details)" :=
  (claim2_priority exCaseNoPatient).2.2.2.2.2.2 (by decide) (by decide)

/- ===== Claim C3 ===== -/

/-- Claim C3: Reportability is the reportable verdict
    "Category 2, serious, reportable case" if and only if the case has at
    least one event with a non-empty seriousness-flag set AND at least one
    matched suspect product in the category-2 set while the Validity
    verdict is not Non-Valid; in any other non-Non-Valid combination it is
    "Non-Reportable"; and whenever the Validity verdict is Non-Valid it is
    overridden to "NA" regardless of those two booleans. -/
theorem claim3_reportability (c : CaseInput) :
    (strStarts "Non-Valid" (validity_of c) = true → reportability_of c = "NA")
    ∧ (strStarts "Non-Valid" (validity_of c) = false →
        (reportability_of c = "Category 2, serious, reportable case"
          ↔ (case_has_serious c = true ∧ case_has_category2 c = true)))
    ∧ (strStarts "Non-Valid" (validity_of c) = false →
        (case_has_serious c && case_has_category2 c) = false →
        reportability_of c = "Non-Reportable") := by
  have hb := startsNV_final c
  refine ⟨?_, ?_, ?_⟩
  · intro h
    rw [hb] at h
    simp [reportability_of, h]
  · intro h
    rw [hb] at h
    by_cases hsc : (case_has_serious c && case_has_category2 c) = true
    · simp only [reportability_of, h, Bool.false_eq_true, if_false, hsc, if_true]
      simp only [Bool.and_eq_true] at hsc
      simp [hsc]
    · simp only [reportability_of, h, Bool.false_eq_true, if_false, hsc]
      constructor
      · intro hfalse
        exact absurd hfalse (by decide)
      · intro hboth
        simp only [Bool.and_eq_true] at hsc
        exact absurd ⟨hboth.1, hboth.2⟩ hsc
  · intro h hsc
    rw [hb] at h
    simp [reportability_of, h, hsc]

/-- Witness for claim C3 at a concrete Non-Valid case that is nevertheless
    serious and category 2: reportability is overridden to "NA". -/
theorem claim3_witness : reportability_of exCaseNonValidSerious = "NA" :=
  (claim3_reportability exCaseNonValidSerious).1 (by decide)

/- ===== Claim C4 ===== -/

theorem exposure_tags_nil_iff (c : CaseInput) (l : DateD) :
    exposure_tags c l = [] ↔
      (optLt (parse_date_obj c.frd_raw) l = false
        ∧ optLt (parse_date_obj c.lrd_raw) l = false
        ∧ (case_event_dates c).any (fun pr => optLt pr.1 l || optLt pr.2 l) = false
        ∧ (case_drug_rows c).any (fun r => !(strEmptyB r.prod) && optLt r.start l) = false) := by
  unfold exposure_tags
  by_cases h1 : optLt (parse_date_obj c.frd_raw) l = true
  · by_cases h2 : optLt (parse_date_obj c.lrd_raw) l = true <;> simp [h1, h2]
  · rw [Bool.not_eq_true] at h1
    by_cases h2 : optLt (parse_date_obj c.lrd_raw) l = true
    · simp [h1, h2]
    · rw [Bool.not_eq_true] at h2
      by_cases h3 : (case_event_dates c).any (fun pr => optLt pr.1 l || optLt pr.2 l) = true
      · simp [h1, h2, h3]
      · rw [Bool.not_eq_true] at h3
        by_cases h4 : (case_drug_rows c).any
            (fun r => !(strEmptyB r.prod) && optLt r.start l) = true
        · simp [h1, h2, h3, h4]
        · rw [Bool.not_eq_true] at h4
          simp [h1, h2, h3, h4]

/-- Claim C4 (amended): for every case where none of the three
    higher-priority rules fired and an earliest launch date `l` is known
    over the matched suspect products — per product the single launch
    date or, the case loop never extracting a strength, the earliest date
    among all strength tiers — the Validity verdict flags drug exposure
    prior to launch if and only if the case FRD (the last `low` date of
    the document), the case LRD (the first `availabilityTime`), a drug
    START date, or an event start or stop date strictly precedes `l`.
    Contrary to the claim, the case transmission date is not consulted,
    and drug STOP dates are not consulted either (line 618 stores `None`
    for them). -/
theorem claim4_exposure (c : CaseInput) (l : DateD)
    (h1 : rule_no_patient c = false)
    (h2 : rule_non_company c = false)
    (h3 : rule_not_launched c = false)
    (hl : earliest_launch c = some l) :
    (∃ s, validity_reason c = some s
        ∧ strStarts "Drug exposure prior to Launch" s = true)
      ↔ (optLt (parse_date_obj c.frd_raw) l = true
         ∨ optLt (parse_date_obj c.lrd_raw) l = true
         ∨ (case_event_dates c).any (fun pr => optLt pr.1 l || optLt pr.2 l) = true
         ∨ (case_drug_rows c).any (fun r => !(strEmptyB r.prod) && optLt r.start l) = true) := by
  simp only [rule_non_company, Bool.or_eq_false_iff] at h2
  have hreason : validity_reason c
      = (if (exposure_tags c l).isEmpty then none
         else some ("Drug exposure prior to Launch; "
            ++ joinSep ", " (sortByKey (fun x => x) (exposure_tags c l).eraseDups))) := by
    unfold validity_reason
    simp [h1, h2.1, h2.2, h3, hl]
  by_cases he : exposure_tags c l = []
  · rw [hreason]
    have h4 := (exposure_tags_nil_iff c l).mp he
    simp only [he, List.isEmpty_nil, if_true]
    constructor
    · intro hex
      rcases hex with ⟨s, hs, _⟩
      cases hs
    · intro hor
      rcases hor with h | h | h | h <;>
        simp [h4.1, h4.2.1, h4.2.2.1, h4.2.2.2] at h
  · rw [hreason]
    have hne : (exposure_tags c l).isEmpty = false := by
      cases hlist : exposure_tags c l with
      | nil => exact absurd hlist he
      | cons a tl => simp [List.isEmpty]
    simp only [hne, Bool.false_eq_true, if_false]
    constructor
    · intro _
      by_contra hnone
      push_neg at hnone
      simp only [Bool.not_eq_true] at hnone
      have h4 := (exposure_tags_nil_iff c l).mpr
        ⟨hnone.1, hnone.2.1, hnone.2.2.1, hnone.2.2.2⟩
      exact he h4
    · intro _
      refine ⟨_, rfl, ?_⟩
      exact strStarts_append _ _ _ (by decide)

/-- Claim C4 counterexample: in `exCaseTd` no higher-priority rule fires,
    the matched product has the known launch date 2022-09-08, and the case
    transmission date 2022-01-01 strictly precedes it, so the claim
    requires the exposure flag; the code leaves the case "Valid" because
    it compares only FRD/LRD, event dates and drug start dates (lines
    769-790), never the transmission date. -/
theorem claim4_counterexample :
    rule_no_patient exCaseTd = false
    ∧ rule_non_company exCaseTd = false
    ∧ rule_not_launched exCaseTd = false
    ∧ earliest_launch exCaseTd = some ⟨2022, 9, 8⟩
    ∧ parse_date_obj exCaseTd.td_raw = some ⟨2022, 1, 1⟩
    ∧ dlt ⟨2022, 1, 1⟩ ⟨2022, 9, 8⟩ = true
    ∧ validity_reason exCaseTd = none
    ∧ validity_of exCaseTd = "Valid" :=
  ⟨by decide, by decide, by decide, by decide, by decide, by decide, by decide, by decide⟩

/-- Witness for claim C4's amended theorem: in `exCaseExposure` the drug
    start date and FRD precede the launch date, and the verdict flags
    exposure prior to launch. -/
theorem claim4_witness :
    ∃ s, validity_reason exCaseExposure = some s
      ∧ strStarts "Drug exposure prior to Launch" s = true :=
  (claim4_exposure exCaseExposure ⟨2022, 9, 8⟩ (by decide) (by decide) (by decide)
    (by decide)).mpr (by decide)

/- ===== Claim C5 ===== -/

theorem strEmptyB_append_right (s t : String) (h : strEmptyB t = false) :
    strEmptyB (s ++ t) = false := by
  unfold strEmptyB at h ⊢
  rw [strData_append]
  cases ht : t.data with
  | nil => rw [ht] at h; exact absurd h (by simp)
  | cons a tl =>
    cases hs : s.data with
    | nil => simp
    | cons b sl => simp

theorem joinSep_of_mem_ne (sep : String) :
    ∀ (l : List String) (x : String), x ∈ l → strEmptyB x = false →
      strEmptyB (joinSep sep l) = false
  | [], x, hx, _ => absurd hx (List.not_mem_nil x)
  | a :: rest, x, hx, hne => by
    rcases List.mem_cons.mp hx with h | h
    · subst h
      exact joinSep_cons_ne_empty sep x rest hne
    · cases rest with
      | nil => exact absurd h (List.not_mem_nil x)
      | cons y tl =>
        show strEmptyB (a ++ sep ++ joinSep sep (y :: tl)) = false
        exact strEmptyB_append_right _ _ (joinSep_of_mem_ne sep (y :: tl) x h hne)

/-- Claim C5 (amended): the "has any patient detail" flag is true if and
    only if one of the SIX fields initials, gender, age group, age,
    height, weight is present — the patient record number is excluded from
    the flag (line 450) although it is part of the composed summary.
    Hence a true flag implies a non-empty summary, but not conversely;
    the patient parts list is empty exactly when all SEVEN fields
    (including the record number) are absent, and the summary is the
    ordered join of that list. -/
theorem claim5_patient_flag (p : PatientRaw) :
    (has_any_patient_detail p = true ↔
      (strEmptyB (patient_initials_of p) = false ∨ strEmptyB p.gender = false
        ∨ strEmptyB p.age_group = false ∨ strEmptyB p.age = false
        ∨ strEmptyB p.height = false ∨ strEmptyB p.weight = false))
    ∧ (has_any_patient_detail p = true → strEmptyB (patient_detail p) = false)
    ∧ (patient_parts p = [] ↔
        (strEmptyB (patient_initials_of p) = true ∧ strEmptyB p.gender = true
          ∧ strEmptyB p.age_group = true ∧ strEmptyB p.age = true
          ∧ strEmptyB p.height = true ∧ strEmptyB p.weight = true
          ∧ strEmptyB p.record_no = true))
    ∧ (patient_parts p = [] → patient_detail p = "") := by
  have hiff : has_any_patient_detail p = true ↔
      (strEmptyB (patient_initials_of p) = false ∨ strEmptyB p.gender = false
        ∨ strEmptyB p.age_group = false ∨ strEmptyB p.age = false
        ∨ strEmptyB p.height = false ∨ strEmptyB p.weight = false) := by
    simp [has_any_patient_detail, Bool.or_eq_true, or_assoc]
  refine ⟨hiff, ?_, ?_, ?_⟩
  · intro h
    have hd := hiff.mp h
    unfold patient_detail
    rcases hd with h | h | h | h | h | h
    · refine joinSep_of_mem_ne ", " _ ("Initials: " ++ patient_initials_of p) ?_
        (strEmptyB_append_left _ _ (by decide))
      simp [patient_parts, h]
    · refine joinSep_of_mem_ne ", " _ ("Gender: " ++ p.gender) ?_
        (strEmptyB_append_left _ _ (by decide))
      simp [patient_parts, h]
    · refine joinSep_of_mem_ne ", " _ ("Age Group: " ++ p.age_group) ?_
        (strEmptyB_append_left _ _ (by decide))
      simp [patient_parts, h]
    · refine joinSep_of_mem_ne ", " _ ("Age: " ++ p.age) ?_
        (strEmptyB_append_left _ _ (by decide))
      simp [patient_parts, h]
    · refine joinSep_of_mem_ne ", " _ ("Height: " ++ p.height) ?_
        (strEmptyB_append_left _ _ (by decide))
      simp [patient_parts, h]
    · refine joinSep_of_mem_ne ", " _ ("Weight: " ++ p.weight) ?_
        (strEmptyB_append_left _ _ (by decide))
      simp [patient_parts, h]
  · by_cases h1 : strEmptyB (patient_initials_of p) = true <;>
      by_cases h2 : strEmptyB p.gender = true <;>
      by_cases h3 : strEmptyB p.age_group = true <;>
      by_cases h4 : strEmptyB p.age = true <;>
      by_cases h5 : strEmptyB p.height = true <;>
      by_cases h6 : strEmptyB p.weight = true <;>
      by_cases h7 : strEmptyB p.record_no = true <;>
      simp_all [patient_parts]
  · intro h
    unfold patient_detail
    rw [h]
    rfl

/-- Claim C5 counterexample: `exPatientRecordOnly` has only a patient
    record number; its composed summary "Record No: PRN-1" is non-empty,
    yet the "has any patient detail" flag is false — the flag is not
    "true exactly when the summary is non-empty", because the record
    number field is excluded from the flag. -/
theorem claim5_counterexample :
    has_any_patient_detail exPatientRecordOnly = false
    ∧ patient_detail exPatientRecordOnly = "Record No: PRN-1"
    ∧ patient_detail exPatientRecordOnly ≠ "" :=
  ⟨by decide, by decide, by decide⟩

/-- Witness for claim C5's amended theorem at a patient with only a
    gender: the flag is true and the summary is non-empty. -/
theorem claim5_witness : strEmptyB (patient_detail exPatientGender) = false :=
  (claim5_patient_flag exPatientGender).2.1 (by decide)

/- ===== Claim C7 ===== -/

/-- Claim C7 (amended): for every event whose coded term has no matching
    row in a supplied mapping table, the per-case warning "LLT code ...
    not found in mapping file ..." is recorded and processing continues,
    and the term falls back to the event node's `displayName` attribute
    (NOT to the raw code as the claim states; when the attribute is empty
    the term simply stays empty); the normalized term used for listedness
    is the normalization of that displayName. -/
theorem claim7_fallback (tbl : List MappingRow) (ev : EventNode) (c : CaseInput)
    (h1 : ev.value_present = true) (h2 : strEmptyB ev.value_code = false)
    (h3 : findRow tbl (stripStr ev.value_code) = none) :
    (resolveEvent (some tbl) ev).1 = ev.value_displayName
    ∧ (resolveEvent (some tbl) ev).2
        = ["LLT code " ++ stripStr ev.value_code
           ++ " not found in mapping file — LLT/PT terms unavailable for this event."]
    ∧ normalize_text (resolveEvent (some tbl) ev).1 = normalize_text ev.value_displayName
    ∧ (ev ∈ c.events →
        ("LLT code " ++ stripStr ev.value_code
          ++ " not found in mapping file — LLT/PT terms unavailable for this event.")
          ∈ case_warnings (some tbl) c) := by
  have hfst : (resolveEvent (some tbl) ev).1 = ev.value_displayName := by
    unfold resolveEvent
    simp only [h1, if_true]
    simp only [h2, Bool.false_eq_true, if_false, h3]
    have hse : strEmptyB "" = true := by decide
    by_cases hdn : strEmptyB ev.value_displayName = true
    · have : ev.value_displayName = "" :=
        strEq_of_data _ "" ((strEmptyB_iff ev.value_displayName).mp hdn)
      simp [hse, h1, hdn, this]
    · rw [Bool.not_eq_true] at hdn
      simp [hse, h1, hdn]
  have hsnd : (resolveEvent (some tbl) ev).2
      = ["LLT code " ++ stripStr ev.value_code
         ++ " not found in mapping file — LLT/PT terms unavailable for this event."] := by
    unfold resolveEvent
    simp only [h1, if_true]
    simp only [h2, Bool.false_eq_true, if_false, h3]
  refine ⟨hfst, hsnd, by rw [hfst], ?_⟩
  · intro hev
    unfold case_warnings
    rw [List.mem_flatten]
    refine ⟨(resolveEvent (some tbl) ev).2, List.mem_map_of_mem _ hev, ?_⟩
    rw [hsnd]
    exact List.mem_singleton.mpr rfl

/-- Claim C7 counterexample: the code "10019211" of `exEventHeadache` has
    no row in `exMapTbl`; the warning is recorded, but the resolved term
    is the displayName "Headache", not the raw code "10019211" that the
    claim says is substituted. -/
theorem claim7_counterexample :
    (resolveEvent (some exMapTbl) exEventHeadache).1 = "Headache"
    ∧ exEventHeadache.value_code = "10019211"
    ∧ (resolveEvent (some exMapTbl) exEventHeadache).1 ≠ "10019211"
    ∧ (resolveEvent (some exMapTbl) exEventHeadache).2
        = ["LLT code 10019211 not found in mapping file — LLT/PT terms unavailable for this event."]
    ∧ normalize_text (resolveEvent (some exMapTbl) exEventHeadache).1 = "headache" :=
  ⟨by decide, by decide, by decide, by decide, by decide⟩

/-- Witness for claim C7's amended theorem: the not-found warning of
    `exEventHeadache` lands in the warnings of `exCaseListedness`. -/
theorem claim7_witness :
    ("LLT code " ++ stripStr exEventHeadache.value_code
      ++ " not found in mapping file — LLT/PT terms unavailable for this event.")
      ∈ case_warnings (some exMapTbl) exCaseListedness :=
  (claim7_fallback exMapTbl exEventHeadache exCaseListedness
    (by decide) (by decide) (by decide)).2.2.2 (by decide)

/- ===== Claim C8 ===== -/

theorem matchedDrugs_erase (c : CaseInput) :
    matchedDrugs (eraseAdvisoryTexts c)
      = (matchedDrugs c).map (fun d =>
          { d with dosage_text := "", form_text := "", lot_text := "" }) := by
  unfold matchedDrugs matchedDrugsL eraseAdvisoryTexts
  rw [filter_map_comm]
  rfl

theorem products_erase (c : CaseInput) :
    case_products_norm (eraseAdvisoryTexts c) = case_products_norm c := by
  unfold case_products_norm
  rw [matchedDrugs_erase, List.map_map]
  rfl

theorem mahs_erase (c : CaseInput) :
    case_displayed_mahs (eraseAdvisoryTexts c) = case_displayed_mahs c := by
  unfold case_displayed_mahs
  rw [matchedDrugs_erase, List.map_map]
  rfl

theorem rows_erase (c : CaseInput) :
    case_drug_rows (eraseAdvisoryTexts c) = case_drug_rows c := by
  unfold case_drug_rows
  rw [matchedDrugs_erase, List.map_map]
  rfl

theorem nonCelix_erase (c : CaseInput) :
    hasNonCelixMah (eraseAdvisoryTexts c) = hasNonCelixMah c := by
  unfold hasNonCelixMah
  rw [mahs_erase]

theorem notLaunched_erase (c : CaseInput) :
    rule_not_launched (eraseAdvisoryTexts c) = rule_not_launched c := by
  unfold rule_not_launched
  rw [rows_erase]

theorem earliest_erase (c : CaseInput) :
    earliest_launch (eraseAdvisoryTexts c) = earliest_launch c := by
  unfold earliest_launch
  rw [rows_erase]

theorem tags_erase (c : CaseInput) (l : DateD) :
    exposure_tags (eraseAdvisoryTexts c) l = exposure_tags c l := by
  unfold exposure_tags
  rw [rows_erase]
  rfl

theorem reason_erase (c : CaseInput) :
    validity_reason (eraseAdvisoryTexts c) = validity_reason c := by
  unfold validity_reason
  simp only [products_erase, mahs_erase, nonCelix_erase, notLaunched_erase,
    earliest_erase, tags_erase]
  rfl

theorem base_erase (c : CaseInput) :
    validity_base (eraseAdvisoryTexts c) = validity_base c := by
  unfold validity_base
  rw [reason_erase]

theorem assess_erase (c : CaseInput) :
    displayed_assessment (eraseAdvisoryTexts c) = displayed_assessment c := by
  unfold displayed_assessment
  rw [matchedDrugs_erase, List.map_map]
  rfl

theorem lines_erase (c : CaseInput) :
    per_drug_nonvalid_lines (eraseAdvisoryTexts c) = per_drug_nonvalid_lines c := by
  unfold per_drug_nonvalid_lines
  rw [assess_erase]

/-- Claim C8 (amended): the advisory comment detectors read only the
    dosage, formulation and lot texts beside the display name and MAH, and
    comments never alter the computed non-valid reason: erasing those
    advisory-only texts leaves `validity_reason` unchanged, and a
    Non-Valid case's full Validity string unchanged.  However, contrary to
    the claim, comments DO change the verdict of a case where no hard rule
    fired: with no comments it is "Valid", with any comment it becomes
    "Kindly check comment and assess validity manually" (lines 800-801). -/
theorem claim8_comments_frame (c : CaseInput) :
    validity_reason (eraseAdvisoryTexts c) = validity_reason c
    ∧ (validity_reason c ≠ none → validity_of (eraseAdvisoryTexts c) = validity_of c)
    ∧ (validity_reason c = none → comments_of c = [] → validity_of c = "Valid")
    ∧ (validity_reason c = none → comments_of c ≠ [] →
        validity_of c = "Kindly check comment and assess validity manually") := by
  refine ⟨reason_erase c, ?_, ?_, ?_⟩
  · intro hne
    rcases Option.ne_none_iff_exists'.mp hne with ⟨r, hr⟩
    have hmid : validity_mid (eraseAdvisoryTexts c) = validity_mid c := by
      unfold validity_mid
      rw [reason_erase, base_erase, hr]
      simp
    have hnv : is_non_valid_case (eraseAdvisoryTexts c) = is_non_valid_case c := by
      unfold is_non_valid_case
      rw [hmid]
    unfold validity_of
    rw [assess_erase, lines_erase, hmid, hnv]
  · intro hr hc
    have hmid : validity_mid c = "Valid" := by
      unfold validity_mid
      simp [hr, hc, validity_base]
    have hnv : is_non_valid_case c = false := by
      unfold is_non_valid_case
      rw [hmid]
      exact nv_valid_false
    unfold validity_of
    rw [hnv]
    simp [hmid]
  · intro hr hc
    have hce : (comments_of c).isEmpty = false := by
      cases hlist : comments_of c with
      | nil => exact absurd hlist hc
      | cons a tl => simp [List.isEmpty]
    have hmid : validity_mid c = "Kindly check comment and assess validity manually" := by
      unfold validity_mid
      simp [hr, hce]
    have hnv : is_non_valid_case c = false := by
      unfold is_non_valid_case
      rw [hmid]
      exact nv_kindly_false
    unfold validity_of
    rw [hnv]
    simp [hmid]

/-- Claim C8 counterexample: `exCasePL` differs from its advisory-erased
    variant only in the formulation text "PL 12345/6789", which generates
    only the license-number advisory comment; no hard rule fires in either
    case, yet the Validity verdicts differ — the advisory comment changes
    Validity from "Valid" to the manual-review verdict, contradicting the
    claim that comments never change the Validity verdict. -/
theorem claim8_counterexample :
    validity_reason exCasePL = none
    ∧ comments_of exCasePL
        = ["plz check product name as Abiraterone Tablets PL 12345/6789 given"]
    ∧ comments_of (eraseAdvisoryTexts exCasePL) = []
    ∧ validity_of exCasePL = "Kindly check comment and assess validity manually"
    ∧ validity_of (eraseAdvisoryTexts exCasePL) = "Valid"
    ∧ validity_of exCasePL ≠ validity_of (eraseAdvisoryTexts exCasePL) :=
  ⟨by decide, by decide, by decide, by decide, by decide, by decide⟩

/-- Witness for claim C8's amended theorem at `exCasePL`. -/
theorem claim8_witness :
    validity_of exCasePL = "Kindly check comment and assess validity manually" :=
  (claim8_comments_frame exCasePL).2.2.2 (by decide) (by decide)

/- ===== Claim C9 ===== -/

/-- Claim C9: for every case whose patient name node carries
    `nullFlavor="MSK"`, the patient initials field is the literal string
    "Masked" (which survives the unknown-token filter), so the case always
    has "has any patient detail" true and the "No patient details"
    validity rule never fires, whatever the other demographic fields and
    case data are. -/
theorem claim9_masked (c : CaseInput) (nn : NameNode)
    (h1 : c.patient.nameNode = some nn) (h2 : nn.msk = true) :
    patient_initials_of c.patient = "Masked"
    ∧ has_any_patient_detail c.patient = true
    ∧ validity_reason c ≠ some "No patient details" := by
  have hini : patient_initials_of c.patient = "Masked" := by
    unfold patient_initials_of
    rw [h1]
    simp only [initialsOf, h2, if_true]
    decide
  have hmne : strEmptyB "Masked" = false := by decide
  have hflag : has_any_patient_detail c.patient = true := by
    unfold has_any_patient_detail
    rw [hini, hmne]
    rfl
  have hnp : rule_no_patient c = false := by
    unfold rule_no_patient
    rw [hflag]
    rfl
  refine ⟨hini, hflag, ?_⟩
  unfold validity_reason
  rw [hnp]
  simp only [Bool.false_eq_true, if_false]
  by_cases hA : (!(c.suspect_ids.isEmpty) && (case_products_norm c).isEmpty) = true
  · simp [hA]
  · rw [Bool.not_eq_true] at hA
    by_cases hB : (!(case_displayed_mahs c).isEmpty && hasNonCelixMah c) = true
    · simp [hA, hB]
    · rw [Bool.not_eq_true] at hB
      by_cases hC : rule_not_launched c = true
      · simp [hA, hB, hC]
      · rw [Bool.not_eq_true] at hC
        simp only [hA, hB, hC, Bool.false_eq_true, if_false]
        cases he : earliest_launch c with
        | none => simp
        | some l =>
          by_cases hD : (exposure_tags c l).isEmpty = true
          · simp [hD]
          · rw [Bool.not_eq_true] at hD
            simp only [hD, Bool.false_eq_true, if_false]
            intro hcontra
            have hs := Option.some.inj hcontra
            exact absurd hs
              (ne_of_starts "Drug exposure prior to Launch" _ _
                (strStarts_append _ _ _ (by decide)) (by decide))

/-- Witness for claim C9 at `exCaseMsk`: a case whose only patient datum
    is a masked name node. -/
theorem claim9_witness :
    patient_initials_of exCaseMsk.patient = "Masked"
    ∧ has_any_patient_detail exCaseMsk.patient = true
    ∧ validity_reason exCaseMsk ≠ some "No patient details" :=
  claim9_masked exCaseMsk ⟨true, [], "", ""⟩ rfl rfl

/- ===== Claim C10 ===== -/

/-- Claim C10: whenever at least one matched suspect drug has lot-number
    text containing an alphanumeric character after the unknown-token
    filter, the comment "Verify Lot No with Celix-Lot No List" is appended
    (line 579-580); consequently, if no non-valid rule fires, the case's
    Validity verdict is "Kindly check comment and assess validity
    manually" and never the plain "Valid". -/
theorem claim10_lot (c : CaseInput)
    (h : (matchedDrugs c).any (fun d => hasAlnum (clean_value d.lot_text)) = true) :
    "Verify Lot No with Celix-Lot No List" ∈ comments_of c
    ∧ (validity_reason c = none →
        validity_of c = "Kindly check comment and assess validity manually"
        ∧ validity_of c ≠ "Valid") := by
  have hmem : "Verify Lot No with Celix-Lot No List" ∈ comments_of c := by
    rcases List.any_eq_true.mp h with ⟨d, hd, hlot⟩
    unfold comments_of
    rw [List.mem_flatten]
    refine ⟨drugComments d, List.mem_map_of_mem _ hd, ?_⟩
    unfold drugComments
    simp only [hlot, if_true]
    exact List.mem_append_left _
      (List.mem_append_left _ (List.mem_append_left _ (List.mem_singleton.mpr rfl)))
  refine ⟨hmem, ?_⟩
  intro hr
  have hce : (comments_of c).isEmpty = false := by
    cases hlist : comments_of c with
    | nil => rw [hlist] at hmem; exact absurd hmem (List.not_mem_nil _)
    | cons a tl => simp [List.isEmpty]
  have hmid : validity_mid c = "Kindly check comment and assess validity manually" := by
    unfold validity_mid
    simp [hr, hce]
  have hnv : is_non_valid_case c = false := by
    unfold is_non_valid_case
    rw [hmid]
    exact nv_kindly_false
  have hfin : validity_of c = "Kindly check comment and assess validity manually" := by
    unfold validity_of
    rw [hnv]
    simp [hmid]
  exact ⟨hfin, by rw [hfin]; decide⟩

/-- Witness for claim C10 at `exCaseLot`, whose matched drug has lot text
    "B123". -/
theorem claim10_witness :
    "Verify Lot No with Celix-Lot No List" ∈ comments_of exCaseLot
    ∧ validity_of exCaseLot = "Kindly check comment and assess validity manually" :=
  ⟨(claim10_lot exCaseLot (by decide)).1,
   ((claim10_lot exCaseLot (by decide)).2 (by decide)).1⟩
